import Mathlib

/-!
Verification of the InsuranceAIAgents claim-intake pipeline.

Shallow embedding of the repository's seven source files:
  * `streamlit_app.py`  — mock helpers `validate_policy`, `analyze_damage`,
    `check_weather`, `evaluate_claim`, `issue_refund` and the UI orchestration;
  * `app_utils/policy_api.py` — registry-based `validate_policy`;
  * `app_utils/weather_api.py` — fail-closed OpenWeatherMap corroborator;
  * `app_utils/db.py` — the `Claim` audit row schema;
  * `app_utils/payments.py` — Stripe payout stub;
  * `utils/weather_api.py` — older corroborator variant without error handling;
  * `utils/image_processing.py` — YOLO-based damage assessor.

External HTTP calls are modelled by an environment record carrying the
responses the network would have produced (`Except` for calls that can fail);
Python floats are modelled as rationals.
-/

attribute [local semireducible] Rat.add Rat.mul Rat.inv Rat.sub

/-! ## Decision engine — `streamlit_app.py`, `evaluate_claim` (lines 49–57) -/

/-- The `damage_info` dict produced by `analyze_damage`: a damage category
string under key "type" and a numeric estimate. -/
structure DamageInfo where
  type : String
  estimate : ℚ
deriving DecidableEq, Repr

/-- `evaluate_claim(damage_info, weather_ok)` from `streamlit_app.py`:
deny when weather does not corroborate, else deny when the estimate exceeds
5 000, else approve.  The strings are byte-for-byte the source's
(U+2011 non-breaking hyphen in "instant‑settlement"). -/
def evaluate_claim (damage_info : DamageInfo) (weather_ok : Bool) : Bool × String :=
  if !weather_ok then
    (false, "Weather data does not corroborate the reported peril.")
  else if damage_info.estimate > 5000 then
    (false, "Damage estimate exceeds instant‑settlement threshold.")
  else
    (true, "Approved by rules engine.")

/-! ## Policy validation -/

/-- `VALID_POLICIES` from `app_utils/policy_api.py`. -/
def VALID_POLICIES : List String :=
  ["DEMO-12345", "DEMO-678910", "DEMO-11111", "99999"]

/-- `validate_policy(policy_no)` from `app_utils/policy_api.py`:
membership in the registry set. -/
def validate_policy (policy_no : String) : Bool :=
  VALID_POLICIES.contains policy_no

/-- `validate_policy(policy_no)` from `streamlit_app.py` (lines 14–16):
`policy_no.upper().startswith("POL") and len(policy_no) >= 6`. -/
def st_validate_policy (policy_no : String) : Bool :=
  policy_no.toUpper.startsWith "POL" && decide (6 ≤ policy_no.length)

/-! ## Weather corroboration

Three variants exist in the source: the fail-closed one in
`app_utils/weather_api.py`, the older one without error handling in
`utils/weather_api.py`, and the date-based mock in `streamlit_app.py`.
The two HTTP-backed variants are embedded against a `WeatherEnv` that
records what the network would have answered; `Except Unit` models a
request that raises (connection error, non-2xx status, JSON error). -/

/-- A geocoding hit: `geo_data[0]['lat'], geo_data[0]['lon']`. -/
structure GeoPoint where
  lat : ℚ
  lon : ℚ
deriving DecidableEq, Repr

/-- One entry of an hour's `weather` list; `wmain` models `w.get('main', '')`
(`none` when the key is absent). -/
structure WeatherEntry where
  wmain : Option String
deriving DecidableEq, Repr

/-- One element of the one-call response's `hourly` list; `rain1h` models
`hour.get('rain', {}).get('1h', 0)` (`none` when the key is absent). -/
structure HourData where
  rain1h : Option ℚ
  weather : List WeatherEntry
deriving DecidableEq, Repr

/-- The one-call time-machine response; `hourly` models `data.get('hourly', [])`. -/
structure OneCallData where
  hourly : List HourData
deriving DecidableEq, Repr

/-- The outside world as seen by `check_weather`: the `OWM_API_KEY`
environment variable and the two HTTP responses. -/
structure WeatherEnv where
  apiKey : Option String
  geocodeResp : Except Unit (List GeoPoint)
  onecallResp : Except Unit OneCallData

/-- Python's `str.lower()` (the source only ever compares ASCII condition
labels).  Defined over the character list so it evaluates in the kernel. -/
def py_lower (s : String) : String := String.mk (s.data.map Char.toLower)

/-- Python truthiness of `os.getenv(...)`: `not key` is true exactly when the
variable is unset or empty. -/
def pyTruthy (s : Option String) : Bool :=
  match s with
  | none => false
  | some t => t ≠ ""

/-- The hourly evaluation loop of `app_utils/weather_api.py` (lines 37–47):
rain check for `rain_damage`, case-insensitive `hail` label check for
`hail_damage`. -/
def eval_hourly (damage_type : String) (hours : List HourData) : Bool :=
  hours.any fun hour =>
    (damage_type == "rain_damage" && decide (0 < hour.rain1h.getD 0)) ||
    (damage_type == "hail_damage" &&
      hour.weather.any fun w => py_lower (w.wmain.getD "") == "hail")

/-- `check_weather(location, date, damage_type)` from
`app_utils/weather_api.py`: returns immediately when the key is unset or
empty; each `try/except` block resolves a failed request to `False`; an
empty geocoding result also yields `False`.  The second component logs the
HTTP requests actually issued, in order. -/
def app_check_weather (env : WeatherEnv) (damage_type : String) :
    Bool × List String :=
  if !pyTruthy env.apiKey then
    (false, [])
  else
    match env.geocodeResp with
    | .error _ => (false, ["geocode"])
    | .ok [] => (false, ["geocode"])
    | .ok (_ :: _) =>
      match env.onecallResp with
      | .error _ => (false, ["geocode", "timemachine"])
      | .ok data => (eval_hourly damage_type data.hourly, ["geocode", "timemachine"])

/-- `check_weather(location, date, damage_type)` from `utils/weather_api.py`:
no key guard and no `try/except`, so a failed request propagates, and
`.json()[0]` on an empty geocoding result raises `IndexError`
(modelled as `Except.error`).  The hourly loop checks only `rain_damage`. -/
def utils_check_weather (env : WeatherEnv) (damage_type : String) :
    Except Unit Bool :=
  match env.geocodeResp with
  | .error e => .error e
  | .ok [] => .error ()
  | .ok (_ :: _) =>
    match env.onecallResp with
    | .error e => .error e
    | .ok data =>
      .ok (data.hourly.any fun h =>
        damage_type == "rain_damage" && decide (0 < h.rain1h.getD 0))

/-- `check_weather(postcode, date_of_loss, damage_type)` from
`streamlit_app.py` (lines 40–46): hail corroborates iff the loss is within
the last 7 days (`days_ago` = today − date_of_loss in days); every other
damage type always corroborates. -/
def st_check_weather (days_ago : Int) (damage_type : String) : Bool :=
  if damage_type == "hail" then decide (days_ago ≤ 7) else true

/-! ## Damage assessment

Two variants: the YOLO-based `analyze_damage` in `utils/image_processing.py`
(embedded against the detections the vision collaborator returns for the
image, per spec §6 `VisionEstimator`) and the file-size mock in
`streamlit_app.py`. -/

/-- Python `int()` on a float: truncation toward zero. -/
def pyInt (q : ℚ) : Int := if 0 ≤ q then ⌊q⌋ else ⌈q⌉

/-- `CATEGORY_MAPPING.get(cls, 'other')` from `utils/image_processing.py`:
`{0: 'rain_damage', 1: 'fire_damage', 2: 'other'}` with default `'other'`. -/
def category_mapping (cls : Int) : String :=
  if cls = 0 then "rain_damage" else if cls = 1 then "fire_damage" else "other"

/-- One row of the YOLO detection tensor `results.xyxy[0]`: box corners at
indices 0–3, confidence at 4, class id (after `int()`) at 5. -/
structure Detection where
  x1 : ℚ
  y1 : ℚ
  x2 : ℚ
  y2 : ℚ
  conf : ℚ
  cls : Int
deriving DecidableEq, Repr

/-- `analyze_damage(uploaded_file)` from `utils/image_processing.py`:
no detections yield the distinguished `{"type": "unknown", "estimate": 0}`;
otherwise the first detection's class is mapped to a category and the box
area drives `max(500, min(5000, int(area/1000)))`. -/
def utils_analyze_damage (det : List Detection) : String × Int :=
  match det with
  | [] => ("unknown", 0)
  | d :: _ =>
    let damage_type := category_mapping d.cls
    let area := (d.x2 - d.x1) * (d.y2 - d.y1)
    let estimate := max 500 (min 5000 (pyInt (area / 1000)))
    (damage_type, estimate)

/-- The `io.BytesIO` payload as `streamlit_app.py`'s mock reads it: only the
buffer's byte count is consumed. -/
structure BytesIO where
  nbytes : ℕ
deriving DecidableEq, Repr

/-- Python's `round(x, 2)` (round half to even), modelled on the rational
value of the float. -/
def py_round_half_even (q : ℚ) : ℤ :=
  let f := ⌊q⌋
  let r := q - f
  if r < 1/2 then f
  else if 1/2 < r then f + 1
  else if f % 2 = 0 then f else f + 1

/-- `round(·, 2)` at 2 decimal places. -/
def pyRound2 (q : ℚ) : ℚ := (py_round_half_even (q * 100) : ℚ) / 100

/-- `analyze_damage(photo_file)` from `streamlit_app.py` (lines 30–37):
raises `ValueError("No photo uploaded")` on `None`; otherwise the file size
in KB decides the category (`size_kb % 2` truthiness) and the estimate is
`round(500 + size_kb * 1.3, 2)`. -/
def st_analyze_damage (photo_file : Option BytesIO) :
    Except String (String × ℚ) :=
  match photo_file with
  | none => .error "No photo uploaded"
  | some f =>
    let size_kb : ℚ := (f.nbytes : ℚ) / 1024
    let damage_type := if size_kb - 2 * ⌊size_kb / 2⌋ ≠ 0 then "hail" else "wind"
    let estimate := pyRound2 (500 + size_kb * (13 / 10))
    .ok (damage_type, estimate)

/-! ## Payout and the claim pipeline -/

/-- `issue_refund(amount, iban)` from `streamlit_app.py` (lines 60–63):
`f"TX‑{uuid4().hex[:8].upper()}"` (U+2011 after TX).  The uuid hex digits
are the environment's randomness, passed in explicitly; `.upper()` and the
slice are modelled over the character list so they evaluate in the kernel. -/
def issue_refund (uuid_hex : String) : String :=
  "TX‑" ++ String.mk ((uuid_hex.data.take 8).map Char.toUpper)

/-- The immutable claim submission (spec §3). -/
structure ClaimSubmission where
  policy_no : String
  claimant_name : String
  email : String
  date_of_loss : Int
  location : String
deriving DecidableEq, Repr

/-- The audit row, following the `Claim` schema of `app_utils/db.py`
(`damage_info` JSON split into category and estimate; `refund_tx` is the
nullable transaction-id column). -/
structure ClaimRecord where
  policy_no : String
  claimant_name : String
  email : String
  date_of_loss : Int
  location : String
  damage_type : String
  estimate : ℚ
  weather_ok : Bool
  approved : Bool
  notes : String
  refund_tx : Option String
deriving DecidableEq, Repr

/-- Terminal pipeline states (spec §4.7): `Rejected` on failed policy
validation, `DeniedWithError` when an approved claim's payout fails,
`Done` when a record was written. -/
inductive PipelineState where
  | Rejected
  | DeniedWithError
  | Done
deriving DecidableEq, Repr

/-- External collaborators consumed by one pipeline run: the weather
network, the vision collaborator's detections for the submitted image, the
payment gateway outcome, and the uuid randomness for the transaction id. -/
structure PipelineEnv where
  weather : WeatherEnv
  detections : List Detection
  payout_fails : Bool
  uuid_hex : String

/-- Observable outcome of one pipeline run: whether the damage assessor was
invoked, the terminal state, and every audit record created. -/
structure PipelineOutcome where
  assessor_called : Bool
  final : PipelineState
  records : List ClaimRecord

/-- Modelled from the spec: `ClaimPipeline.submit` (§4.7).  The orchestrator
that sequences the stages and persists `ClaimRecord`s is not under `src/`
(only the `Claim` schema in `app_utils/db.py` and the stage functions are),
so the state machine is taken from the spec's transition table and
instantiated with the source's stage functions: registry validation, the
`utils` assessor, the `app_utils` corroborator, the streamlit decision
engine and payout stub. -/
def ClaimPipeline.submit (env : PipelineEnv) (sub : ClaimSubmission) :
    PipelineOutcome :=
  if validate_policy sub.policy_no then
    let assessment := utils_analyze_damage env.detections
    let weather_ok := (app_check_weather env.weather assessment.1).1
    let decision := evaluate_claim ⟨assessment.1, (assessment.2 : ℚ)⟩ weather_ok
    if decision.1 then
      if env.payout_fails then
        { assessor_called := true, final := .DeniedWithError, records := [] }
      else
        { assessor_called := true, final := .Done,
          records := [{ policy_no := sub.policy_no,
                        claimant_name := sub.claimant_name,
                        email := sub.email,
                        date_of_loss := sub.date_of_loss,
                        location := sub.location,
                        damage_type := assessment.1,
                        estimate := (assessment.2 : ℚ),
                        weather_ok := weather_ok,
                        approved := true,
                        notes := decision.2,
                        refund_tx := some (issue_refund env.uuid_hex) }] }
    else
      { assessor_called := true, final := .Done,
        records := [{ policy_no := sub.policy_no,
                      claimant_name := sub.claimant_name,
                      email := sub.email,
                      date_of_loss := sub.date_of_loss,
                      location := sub.location,
                      damage_type := assessment.1,
                      estimate := (assessment.2 : ℚ),
                      weather_ok := weather_ok,
                      approved := false,
                      notes := decision.2,
                      refund_tx := none }] }
  else
    { assessor_called := false, final := .Rejected, records := [] }

/-! ## Concrete test fixtures -/

/-- A one-call response whose single hour carries a "Hail" condition label
and no rain field. -/
def hailData : OneCallData := ⟨[⟨none, [⟨some "Hail"⟩]⟩]⟩

/-- Environment for a fully successful lookup returning `hailData`. -/
def envHail : WeatherEnv := ⟨some "k", .ok [⟨47, 8⟩], .ok hailData⟩

/-- A one-call response whose single hour carries 1.5 mm of rain. -/
def rainData : OneCallData := ⟨[⟨some (3/2), []⟩]⟩

/-- Environment for a fully successful lookup returning `rainData`. -/
def envRain : WeatherEnv := ⟨some "k", .ok [⟨1, 2⟩], .ok rainData⟩

/-- A detection of class 0 (`rain_damage`) with a 100×100 box. -/
def det0 : Detection := ⟨0, 0, 100, 100, 9/10, 0⟩

/-- Scenario-A-style submission with the registry's first policy. -/
def sub0 : ClaimSubmission := ⟨"DEMO-12345", "Anna", "anna@example.com", 0, "8001"⟩

/-- Scenario-C submission with an unknown policy. -/
def subUnknown : ClaimSubmission :=
  ⟨"UNKNOWN-000", "Luca", "luca@example.com", 0, "8001"⟩

/-- Pipeline collaborators: corroborating rain weather, one rain detection,
payout succeeds, fixed uuid randomness. -/
def env0 : PipelineEnv := ⟨envRain, [det0], false, "abcd1234"⟩

/-- The audit row `ClaimPipeline.submit env0 sub0` creates. -/
def rec0 : ClaimRecord :=
  ⟨"DEMO-12345", "Anna", "anna@example.com", 0, "8001", "rain_damage", 500,
    true, true, "Approved by rules engine.", some "TX‑ABCD1234"⟩

/-! ## Theorems -/

/-- C1: the decision engine's verdict follows the first-match rule order —
denied whenever `weather_ok` is false; otherwise denied iff the estimate is
strictly above the 5 000 threshold, approved iff it is at most the
threshold. -/
theorem evaluate_claim_first_match (d : DamageInfo) (w : Bool) :
    (evaluate_claim d w).1 = true ↔ (w = true ∧ d.estimate ≤ 5000) := by
  cases w <;> simp [evaluate_claim] <;> split_ifs with h <;> simp_all

/-- C6: every policy identifier outside the registry is rejected by
`validate_policy`, which is a total boolean membership test. -/
theorem validate_policy_fails_closed (p : String) (h : p ∉ VALID_POLICIES) :
    validate_policy p = false := by
  simpa [validate_policy] using h

/-- Witness for C6 at the spec's scenario-C identifier. -/
theorem validate_policy_fails_closed_witness :
    "UNKNOWN-000" ∉ VALID_POLICIES ∧ validate_policy "UNKNOWN-000" = false :=
  ⟨by decide, validate_policy_fails_closed "UNKNOWN-000" (by decide)⟩

/-- C10: when `OWM_API_KEY` is unset or empty, the `app_utils` corroborator
returns `false` immediately and issues no HTTP request, whatever the network
would have answered. -/
theorem app_check_weather_no_key (env : WeatherEnv) (damage_type : String)
    (h : pyTruthy env.apiKey = false) :
    app_check_weather env damage_type = (false, []) := by
  simp [app_check_weather, h]

/-- Witness for C10: both the unset and the empty key, against a network that
would have corroborated a rain claim. -/
theorem app_check_weather_no_key_witness :
    app_check_weather ⟨none, .ok [⟨1, 2⟩], .ok rainData⟩ "rain_damage" = (false, []) ∧
    app_check_weather ⟨some "", .ok [⟨1, 2⟩], .ok rainData⟩ "rain_damage" = (false, []) :=
  ⟨app_check_weather_no_key _ _ rfl, app_check_weather_no_key _ _ rfl⟩

/-- C3 counterexample: the `utils/weather_api.py` corroborator raises when
geocoding fails, instead of returning `false`. -/
theorem utils_check_weather_raises_on_geocode_failure :
    utils_check_weather ⟨some "k", .error (), .ok hailData⟩ "rain_damage" =
      .error () := rfl

/-- C3 amended: the `app_utils/weather_api.py` corroborator resolves every
lookup failure — a failed geocoding request, an empty geocoding result, or a
failed weather request — to `false` rather than raising. -/
theorem app_check_weather_fail_closed (env : WeatherEnv) (damage_type : String)
    (h : env.geocodeResp = .error () ∨ env.geocodeResp = .ok [] ∨
         env.onecallResp = .error ()) :
    (app_check_weather env damage_type).1 = false := by
  obtain ⟨key, geo, onecall⟩ := env
  rcases geo with e | (_ | ⟨g, gs⟩) <;> rcases onecall with e2 | data <;>
    cases hk : pyTruthy key <;> simp_all [app_check_weather]

/-- Witness for C3's amended theorem: an empty geocoding result. -/
theorem app_check_weather_fail_closed_witness :
    (app_check_weather ⟨some "k", .ok [], .ok hailData⟩ "rain_damage").1 = false :=
  app_check_weather_fail_closed _ _ (Or.inr (Or.inl rfl))

/-- C4 counterexample: with a fully successful lookup whose data contains an
hour labelled "Hail", the `utils` corroborator still rejects a hail claim;
and the streamlit mock corroborates the unrecognized category "wind"
unconditionally. -/
theorem weather_category_rule_counterexample :
    utils_check_weather envHail "hail_damage" = .ok false ∧
    (hailData.hourly.any fun h =>
      h.weather.any fun w => py_lower (w.wmain.getD "") == "hail") = true ∧
    st_check_weather 0 "wind" = true :=
  ⟨rfl, by decide, rfl⟩

/-- C4 amended: the `app_utils` corroborator follows the per-category rule on
a successful lookup — rain claims corroborate iff some hourly rain amount is
positive, hail claims iff some hourly condition label is "hail"
case-insensitively, and every other category is never corroborated. -/
theorem app_check_weather_category_rule (env : WeatherEnv) (data : OneCallData)
    (g : GeoPoint) (gs : List GeoPoint)
    (hk : pyTruthy env.apiKey = true)
    (hg : env.geocodeResp = .ok (g :: gs))
    (ho : env.onecallResp = .ok data) :
    ((app_check_weather env "rain_damage").1 = true ↔
      ∃ h ∈ data.hourly, 0 < h.rain1h.getD 0) ∧
    ((app_check_weather env "hail_damage").1 = true ↔
      ∃ h ∈ data.hourly, ∃ w ∈ h.weather, py_lower (w.wmain.getD "") = "hail") ∧
    (∀ c, c ≠ "rain_damage" → c ≠ "hail_damage" →
      (app_check_weather env c).1 = false) := by
  refine ⟨?_, ?_, ?_⟩
  · simp [app_check_weather, hk, hg, ho, eval_hourly, List.any_eq_true]
  · simp [app_check_weather, hk, hg, ho, eval_hourly, List.any_eq_true]
  · intro c hc1 hc2
    simp [app_check_weather, hk, hg, ho, eval_hourly, List.any_eq_true, hc1, hc2]

/-- Witness for C4's amended theorem on concrete rain data. -/
theorem app_check_weather_category_rule_witness :
    (app_check_weather envRain "rain_damage").1 = true :=
  (app_check_weather_category_rule envRain rainData ⟨1, 2⟩ [] rfl rfl rfl).1.mpr
    ⟨⟨some (3/2), []⟩, by simp [rainData], by norm_num⟩

/-- C7 counterexample: the denial reason the code emits is
"Weather data does not corroborate the reported peril.", not the claimed
"weather does not corroborate claimed peril.". -/
theorem decision_reason_counterexample :
    (evaluate_claim ⟨"rain_damage", 1200⟩ false).2 =
      "Weather data does not corroborate the reported peril." ∧
    "Weather data does not corroborate the reported peril." ≠
      "weather does not corroborate claimed peril." :=
  ⟨rfl, by decide⟩

/-- C7 amended: the decision engine's reason strings are exactly
"Weather data does not corroborate the reported peril.",
"Damage estimate exceeds instant‑settlement threshold." (U+2011 hyphen) and
"Approved by rules engine." in the three branches. -/
theorem evaluate_claim_reasons (d : DamageInfo) :
    (evaluate_claim d false).2 =
      "Weather data does not corroborate the reported peril." ∧
    (5000 < d.estimate → (evaluate_claim d true).2 =
      "Damage estimate exceeds instant‑settlement threshold.") ∧
    (d.estimate ≤ 5000 → (evaluate_claim d true).2 =
      "Approved by rules engine.") := by
  refine ⟨rfl, fun h => ?_, fun h => ?_⟩
  · simp [evaluate_claim, h]
  · simp [evaluate_claim, not_lt.mpr h]

/-- Witness for C7's amended theorem at an over-threshold and an approved
estimate. -/
theorem evaluate_claim_reasons_witness :
    (evaluate_claim ⟨"hail", 6000⟩ true).2 =
      "Damage estimate exceeds instant‑settlement threshold." ∧
    (evaluate_claim ⟨"hail", 1200⟩ true).2 = "Approved by rules engine." :=
  ⟨(evaluate_claim_reasons ⟨"hail", 6000⟩).2.1 (by norm_num),
   (evaluate_claim_reasons ⟨"hail", 1200⟩).2.2 (by norm_num)⟩

/-- C5 counterexample: on an image with no detections the `utils` assessor
returns estimate 0, below the claimed clamp minimum; and the streamlit
assessor applies no upper clamp — a 4 096 000-byte payload (4 000 KB)
yields `round(500 + 4000 * 1.3, 2) = 5700`, above the claimed maximum. -/
theorem assessor_clamp_counterexample :
    (utils_analyze_damage [] = ("unknown", 0) ∧
      ¬ 500 ≤ (utils_analyze_damage []).2) ∧
    (st_analyze_damage (some ⟨4096000⟩) = .ok ("wind", 5700) ∧
      ¬ (5700 : ℚ) ≤ 5000) :=
  ⟨⟨rfl, by decide⟩, ⟨rfl, by norm_num⟩⟩

/-- C5 amended: whenever at least one object is detected, the `utils`
assessor's estimate is clamped into [500, 5000]; the two counterexample
paths (no detections, and the unclamped streamlit mock) are the only
violations. -/
theorem utils_analyze_damage_estimate_clamped (det : List Detection)
    (h : det ≠ []) :
    500 ≤ (utils_analyze_damage det).2 ∧ (utils_analyze_damage det).2 ≤ 5000 := by
  cases det with
  | nil => exact absurd rfl h
  | cons d ds =>
    exact ⟨le_max_left _ _, max_le (by norm_num) (min_le_left _ _)⟩

/-- Witness for C5's amended theorem on a single 100×100 rain detection. -/
theorem utils_analyze_damage_estimate_clamped_witness :
    500 ≤ (utils_analyze_damage [det0]).2 ∧
    (utils_analyze_damage [det0]).2 ≤ 5000 :=
  utils_analyze_damage_estimate_clamped [det0] (List.cons_ne_nil det0 [])

/-- C8 counterexample: the two call sites disagree on an empty/absent
payload — the streamlit assessor raises `ValueError` on `None` while the
`utils` assessor returns the distinguished no-evidence assessment when the
image yields no detections. -/
theorem empty_payload_policy_counterexample :
    st_analyze_damage none = .error "No photo uploaded" ∧
    utils_analyze_damage [] = ("unknown", 0) :=
  ⟨rfl, rfl⟩

/-- C8 amended: each call site has a fixed but different policy — the
streamlit assessor raises exactly on an absent payload and returns an
assessment on every present one, while the `utils` assessor never raises on
an absence of detections and returns (unknown, 0) there. -/
theorem empty_payload_policies_differ :
    (st_analyze_damage none).isOk = false ∧
    (∀ f : BytesIO, (st_analyze_damage (some f)).isOk = true) ∧
    utils_analyze_damage [] = ("unknown", 0) :=
  ⟨rfl, fun _ => rfl, rfl⟩

/-- Helper: the mock payments API's transaction id is never the empty
string (it always starts with "TX‑"). -/
theorem issue_refund_ne_empty (s : String) : issue_refund s ≠ "" := by
  intro h
  have hl := congrArg String.length h
  simp [issue_refund, String.length_append] at hl
  exact absurd hl.1 (by decide)

/-- C2: every audit record the pipeline creates satisfies the transaction
invariant — approved records carry a non-empty transaction id, denied
records a null one. -/
theorem claim_record_tx_invariant (env : PipelineEnv) (sub : ClaimSubmission)
    (r : ClaimRecord) (hr : r ∈ (ClaimPipeline.submit env sub).records) :
    (r.approved = true → ∃ tx, r.refund_tx = some tx ∧ tx ≠ "") ∧
    (r.approved = false → r.refund_tx = none) := by
  cases hv : validate_policy sub.policy_no with
  | false => simp [ClaimPipeline.submit, hv] at hr
  | true =>
    cases hd : (evaluate_claim ⟨(utils_analyze_damage env.detections).1,
        ((utils_analyze_damage env.detections).2 : ℚ)⟩
        (app_check_weather env.weather
          (utils_analyze_damage env.detections).1).1).1 with
    | false =>
      simp [ClaimPipeline.submit, hv, hd] at hr
      subst hr
      exact ⟨fun ht => by simp at ht, fun _ => rfl⟩
    | true =>
      cases hp : env.payout_fails with
      | true => simp [ClaimPipeline.submit, hv, hd, hp] at hr
      | false =>
        simp [ClaimPipeline.submit, hv, hd, hp] at hr
        subst hr
        exact ⟨fun _ => ⟨_, rfl, issue_refund_ne_empty _⟩,
          fun hf => by simp at hf⟩

/-- Witness for C2: the approved record of a concrete successful run. -/
theorem claim_record_tx_invariant_witness :
    rec0.approved = true ∧ ∃ tx, rec0.refund_tx = some tx ∧ tx ≠ "" :=
  ⟨rfl, (claim_record_tx_invariant env0 sub0 rec0 (by decide)).1 rfl⟩

/-- C9: when policy validation fails, the pipeline halts in the absorbing
`Rejected` state — the damage assessor is never invoked and no audit record
is created. -/
theorem pipeline_halts_on_invalid_policy (env : PipelineEnv)
    (sub : ClaimSubmission) (h : validate_policy sub.policy_no = false) :
    (ClaimPipeline.submit env sub).assessor_called = false ∧
    (ClaimPipeline.submit env sub).final = PipelineState.Rejected ∧
    (ClaimPipeline.submit env sub).records = [] := by
  simp [ClaimPipeline.submit, h]

/-- Witness for C9 at the spec's scenario-C policy "UNKNOWN-000". -/
theorem pipeline_halts_on_invalid_policy_witness :
    (ClaimPipeline.submit env0 subUnknown).assessor_called = false ∧
    (ClaimPipeline.submit env0 subUnknown).final = PipelineState.Rejected ∧
    (ClaimPipeline.submit env0 subUnknown).records = [] :=
  pipeline_halts_on_invalid_policy env0 subUnknown (by decide)
